import Mathlib

/-!
Shallow embedding of the Lighthouse user-flow module (`user-flow.js`):
the `UserFlow` session state machine (`navigate`, `startNavigation` /
`endNavigation`, `startTimespan` / `endTimespan`, `snapshot`), the
navigation handshake's failure routing, and the `auditGatherSteps`
aggregation pipeline, together with theorems settling the specification
claims about them.

External collaborators (`navigationGather`, `startTimespanGather`,
`snapshotGather`, `initializeConfig`, `Runner.audit`) are modelled as
oracle parameters: functions supplied to each operation that return the
collaborator's outcome for the arguments the source passes.  Opaque
payloads the core never inspects (config JSON, resolved config, LHR
results, error values) are modelled as `String`.
-/

/-- Opaque payload: a flow- or step-level config JSON object. -/
abbrev ConfigJson := String

/-- Opaque payload: a resolved config produced by `initializeConfig`. -/
abbrev Config := String

/-- Opaque payload: the scored result (`result.lhr`) of `Runner.audit`. -/
abbrev LHR := String

/-- Opaque payload: an error thrown by an external gatherer. -/
abbrev GatherError := String

/-- The gather-mode discriminator carried by `artifacts.GatherContext.gatherMode`. -/
inductive GatherMode where
  | navigation
  | timespan
  | snapshot
deriving DecidableEq, Repr

/-- The `GatherContext` artifact: carries the step's gather mode. -/
structure GatherContext where
  gatherMode : GatherMode
deriving DecidableEq, Repr

/-- The `URL` artifact: carries the final displayed URL of the step. -/
structure URLArtifact where
  finalDisplayedUrl : String
deriving DecidableEq, Repr

/-- The artifact bundle of a gather step, restricted to the fields the
user-flow module reads (`artifacts.GatherContext.gatherMode` and
`artifacts.URL.finalDisplayedUrl`). -/
structure Artifacts where
  GatherContext : GatherContext
  URL : URLArtifact
deriving DecidableEq, Repr

/-- `LH.UserFlow.StepFlags`, restricted to the options the user-flow module
itself reads and writes: `name`, `skipAboutBlank`, `disableStorageReset`.
A `none` field models an `undefined` JS property. -/
structure StepFlags where
  name : Option String := none
  skipAboutBlank : Option Bool := none
  disableStorageReset : Option Bool := none
deriving DecidableEq, Repr

/-- `LH.UserFlow.GatherStep`: `{artifacts, stepFlags}`. `stepFlags` is
`none` when the property was `undefined`. -/
structure GatherStep where
  artifacts : Artifacts
  stepFlags : Option StepFlags
deriving DecidableEq, Repr

/-- The per-step computation cache (`new Map()` in the source), modelled as
an association list so that "fresh empty cache" is expressible. -/
structure ComputedCache where
  entries : List (String × String)
deriving DecidableEq, Repr

/-- The empty cache `new Map()`. -/
def ComputedCache.empty : ComputedCache := ⟨[]⟩

/-- `runnerOptions`: the `{config, computedCache}` pair used to score a
step's artifacts. -/
structure RunnerOptions where
  config : Config
  computedCache : ComputedCache
deriving DecidableEq, Repr

/-- `LH.Gatherer.FRGatherResult`: `{artifacts, runnerOptions}` as returned
by the external gatherers. -/
structure GatherResult where
  artifacts : Artifacts
  runnerOptions : RunnerOptions
deriving DecidableEq, Repr

/-- The value stored in `this.currentTimespan` by `startTimespan`:
`{timespan, stepFlags}`.  The external `timespan` handle itself is opaque;
its `endTimespanGather()` outcome is supplied as an oracle parameter when
`endTimespan` runs, so only the recorded `stepFlags` are state. -/
structure CurrentTimespan where
  stepFlags : Option StepFlags
deriving DecidableEq, Repr

instance {ε α : Type} [DecidableEq ε] [DecidableEq α] : DecidableEq (Except ε α) := fun a b =>
  match a, b with
  | .error e1, .error e2 =>
    if h : e1 = e2 then isTrue (by rw [h]) else isFalse (by intro hh; cases hh; exact h rfl)
  | .error _, .ok _ => isFalse (by intro h; cases h)
  | .ok _, .error _ => isFalse (by intro h; cases h)
  | .ok v1, .ok v2 =>
    if h : v1 = v2 then isTrue (by rw [h]) else isFalse (by intro hh; cases hh; exact h rfl)

/-- The value stored in `this.currentNavigation` by `startNavigation`.
In the source it is `{continueAndAwaitResult}`; under the cooperative
scheduling of the spec the closure's behaviour is determined by the step
flags the deferred `navigate()` call computed when it began and by the
eventual outcome of that call, so the handle is modelled by those two
components. -/
structure CurrentNavigation where
  newStepFlags : StepFlags
  result : Except GatherError GatherResult
deriving DecidableEq, Repr

/-- The mutable state of a `UserFlow` instance.  The `_page` handle and
`_options` are not part of the machine's observable state; the
`_gatherStepRunnerOptions` WeakMap is modelled on the audit side as an
arbitrary (possibly absent) lookup function, since weak-map entries may
vanish with their keys. -/
structure UserFlow where
  gatherSteps : List GatherStep := []
  currentNavigation : Option CurrentNavigation := none
  currentTimespan : Option CurrentTimespan := none
deriving DecidableEq, Repr

/-- Failures surfaced by the user-flow module.  The four precondition
errors are the spec's `InvalidFlowState` taxonomy; `gatherError` wraps a
collaborator failure propagated verbatim. -/
inductive FlowError where
  | timespanAlreadyInProgress
  | navigationAlreadyInProgress
  | noNavigationInProgress
  | noTimespanInProgress
  | emptyFlow
  | stepAuditFailed (name : String)
  | gatherError (e : GatherError)
deriving DecidableEq, Repr

/-- Is this error one of the precondition (`InvalidFlowState`) failures? -/
def FlowError.isInvalidFlowState : FlowError → Bool
  | .timespanAlreadyInProgress => true
  | .navigationAlreadyInProgress => true
  | .noNavigationInProgress => true
  | .noTimespanInProgress => true
  | _ => false

/-- Observable outcome of one public `UserFlow` operation: the returned
promise fulfills (`ok`), rejects (`error e`), or never settles (`hangs`). -/
inductive OpOutcome where
  | ok
  | error (e : FlowError)
  | hangs
deriving DecidableEq, Repr

namespace UserFlow

/-- `_getNextNavigationFlags(stepFlags)`: spreads the caller's flags into a
fresh object, defaults `skipAboutBlank` to `true` when it is `undefined`,
and defaults `disableStorageReset` to `true` when it is `undefined` and
some already-recorded step has gather mode `navigation`. -/
def _getNextNavigationFlags (gatherSteps : List GatherStep)
    (stepFlags : Option StepFlags) : StepFlags :=
  let newStepFlags : StepFlags := match stepFlags with
    | some f => f
    | none => {}
  let newStepFlags : StepFlags := match newStepFlags.skipAboutBlank with
    | none => { newStepFlags with skipAboutBlank := some true }
    | some _ => newStepFlags
  let isSubsequentNavigation := gatherSteps.any
    (fun step => step.artifacts.GatherContext.gatherMode == GatherMode.navigation)
  if isSubsequentNavigation then
    match newStepFlags.disableStorageReset with
    | none => { newStepFlags with disableStorageReset := some true }
    | some _ => newStepFlags
  else
    newStepFlags

/-- `_addGatherStep(gatherResult, stepFlags)`: appends the new step to
`_gatherSteps`.  (The source also records `gatherResult.runnerOptions` in
the `_gatherStepRunnerOptions` WeakMap; that side table is modelled at the
audit side as a lookup oracle.) -/
def _addGatherStep (st : UserFlow) (gatherResult : GatherResult)
    (stepFlags : Option StepFlags) : UserFlow :=
  { st with gatherSteps :=
      st.gatherSteps ++ [{ artifacts := gatherResult.artifacts, stepFlags := stepFlags }] }

/-- `navigate(requestor, stepFlags)`.  The external `navigationGather` call
is an oracle taking the flags the source passes to it and returning the
gather outcome. -/
def navigate (st : UserFlow) (stepFlags : Option StepFlags)
    (navigationGather : StepFlags → Except GatherError GatherResult) :
    OpOutcome × UserFlow :=
  if st.currentTimespan.isSome then (.error .timespanAlreadyInProgress, st)
  else if st.currentNavigation.isSome then (.error .navigationAlreadyInProgress, st)
  else
    let newStepFlags := _getNextNavigationFlags st.gatherSteps stepFlags
    match navigationGather newStepFlags with
    | .error e => (.error (.gatherError e), st)
    | .ok gatherResult => (.ok, st._addGatherStep gatherResult (some newStepFlags))

/-- Which future the `.catch` handler inside `startNavigation` routes a
failure of the underlying `navigate()` call to: it checks
`this.currentNavigation` at the time of failure — if the handle is already
installed the error is re-thrown into `navigationResultPromise`
(re-raised by `continueAndAwaitResult`), otherwise
`navigationSetupPromise` is rejected so `startNavigation` itself rejects. -/
inductive FailureRoute where
  | rejectSetup
  | deferToResult
deriving DecidableEq, Repr

/-- The routing decision of `startNavigation`'s `.catch` handler, a
function of whether the navigation handle is installed (not of timing). -/
def navigationCatchHandler (currentNavigation : Option CurrentNavigation) :
    FailureRoute :=
  if currentNavigation.isSome then .deferToResult else .rejectSetup

/-- Behaviour of the deferred `navigate()` call made by `startNavigation`,
as a function of the effective flags it computes:
either `navigationGather` fails before resolving the setup promise
(`failsBeforeReady`), or setup completes — Lighthouse is waiting for the
trigger — and the whole call eventually finishes with `result` once the
continuation is invoked (`ready`). -/
inductive NavigationGatherBehavior where
  | failsBeforeReady (e : GatherError)
  | ready (result : Except GatherError GatherResult)
deriving DecidableEq, Repr

/-- `startNavigation(stepOptions)`.  It calls `this.navigate` with a
requestor that resolves `navigationSetupPromise` with the continuation;
failures of the `navigate()` call are routed by `navigationCatchHandler`.

When `navigate`'s own precondition check fails while `currentNavigation`
is set, the handler re-throws into the never-awaited
`navigationResultPromise`, so `navigationSetupPromise` never settles and
`startNavigation`'s `await navigationSetupPromise` suspends forever: the
returned promise hangs (`OpOutcome.hangs`).  When the handle is not
installed, the setup promise is rejected and `startNavigation` rejects
with the failure.  When setup completes, the handle — carrying the flags
the deferred `navigate()` computed and its eventual outcome — is
installed and `startNavigation` fulfills. -/
def startNavigation (st : UserFlow) (stepOptions : Option StepFlags)
    (gatherBehavior : StepFlags → NavigationGatherBehavior) :
    OpOutcome × UserFlow :=
  if st.currentTimespan.isSome ∨ st.currentNavigation.isSome then
    -- the inner `navigate()` rejects with its precondition error
    let e : FlowError := if st.currentTimespan.isSome then
      .timespanAlreadyInProgress else .navigationAlreadyInProgress
    match navigationCatchHandler st.currentNavigation with
    | .rejectSetup => (.error e, st)
    | .deferToResult => (.hangs, st)
  else
    let newStepFlags := _getNextNavigationFlags st.gatherSteps stepOptions
    match gatherBehavior newStepFlags with
    | .failsBeforeReady e =>
      -- the handle is not installed, so the handler rejects the setup promise
      match navigationCatchHandler st.currentNavigation with
      | .rejectSetup => (.error (.gatherError e), st)
      | .deferToResult => (.hangs, st)
    | .ready result =>
      let nav : CurrentNavigation := { newStepFlags := newStepFlags, result := result }
      (.ok, { st with currentNavigation := some nav })

/-- `endNavigation()`.  On success the deferred `navigate()` call appends
its gather step (inside `continueAndAwaitResult`) and the slot is cleared;
when `continueAndAwaitResult` re-raises a deferred failure, the `await`
throws before the `this.currentNavigation = undefined` line runs, so the
slot stays set. -/
def endNavigation (st : UserFlow) : OpOutcome × UserFlow :=
  if st.currentTimespan.isSome then (.error .timespanAlreadyInProgress, st)
  else
    match st.currentNavigation with
    | none => (.error .noNavigationInProgress, st)
    | some nav =>
      match nav.result with
      | .error e => (.error (.gatherError e), st)
      | .ok gatherResult =>
        let st' := st._addGatherStep gatherResult (some nav.newStepFlags)
        (.ok, { st' with currentNavigation := none })

/-- `startTimespan(stepFlags)`.  The external `startTimespanGather` call is
an oracle taking the flags the source passes and returning success (an
opaque timespan handle) or failure. -/
def startTimespan (st : UserFlow) (stepFlags : Option StepFlags)
    (startTimespanGather : Option StepFlags → Except GatherError Unit) :
    OpOutcome × UserFlow :=
  if st.currentTimespan.isSome then (.error .timespanAlreadyInProgress, st)
  else if st.currentNavigation.isSome then (.error .navigationAlreadyInProgress, st)
  else
    match startTimespanGather stepFlags with
    | .error e => (.error (.gatherError e), st)
    | .ok _ => (.ok, { st with currentTimespan := some { stepFlags := stepFlags } })

/-- `endTimespan()`.  The `timespan.endTimespanGather()` outcome is
supplied as an oracle.  On failure the `await` throws before
`this.currentTimespan = undefined` runs, so the slot stays set and no step
is appended; on success the slot is cleared and the step appended with the
flags recorded at `startTimespan` time. -/
def endTimespan (st : UserFlow)
    (endTimespanGather : Except GatherError GatherResult) :
    OpOutcome × UserFlow :=
  match st.currentTimespan with
  | none => (.error .noTimespanInProgress, st)
  | some cur =>
    if st.currentNavigation.isSome then (.error .navigationAlreadyInProgress, st)
    else
      match endTimespanGather with
      | .error e => (.error (.gatherError e), st)
      | .ok gatherResult =>
        let st' := { st with currentTimespan := none }
        (.ok, st'._addGatherStep gatherResult cur.stepFlags)

/-- `snapshot(stepFlags)`.  The external `snapshotGather` call is an oracle
taking the flags the source passes and returning the gather outcome. -/
def snapshot (st : UserFlow) (stepFlags : Option StepFlags)
    (snapshotGather : Option StepFlags → Except GatherError GatherResult) :
    OpOutcome × UserFlow :=
  if st.currentTimespan.isSome then (.error .timespanAlreadyInProgress, st)
  else if st.currentNavigation.isSome then (.error .navigationAlreadyInProgress, st)
  else
    match snapshotGather stepFlags with
    | .error e => (.error (.gatherError e), st)
    | .ok gatherResult => (.ok, st._addGatherStep gatherResult stepFlags)

end UserFlow

/-- One public `UserFlow` operation together with the behaviour of the
external collaborator it invokes. -/
inductive FlowOp where
  | navigate (stepFlags : Option StepFlags)
      (gather : StepFlags → Except GatherError GatherResult)
  | startNavigation (stepOptions : Option StepFlags)
      (gather : StepFlags → UserFlow.NavigationGatherBehavior)
  | endNavigation
  | startTimespan (stepFlags : Option StepFlags)
      (gather : Option StepFlags → Except GatherError Unit)
  | endTimespan (gather : Except GatherError GatherResult)
  | snapshot (stepFlags : Option StepFlags)
      (gather : Option StepFlags → Except GatherError GatherResult)

/-- Run one operation against the session state. -/
def UserFlow.run (st : UserFlow) : FlowOp → OpOutcome × UserFlow
  | .navigate stepFlags gather => st.navigate stepFlags gather
  | .startNavigation stepOptions gather => st.startNavigation stepOptions gather
  | .endNavigation => st.endNavigation
  | .startTimespan stepFlags gather => st.startTimespan stepFlags gather
  | .endTimespan gather => st.endTimespan gather
  | .snapshot stepFlags gather => st.snapshot stepFlags gather

/-- Run a sequence of operations from a starting state, keeping only the
final state. -/
def UserFlow.runAll (st : UserFlow) (ops : List FlowOp) : UserFlow :=
  ops.foldl (fun s op => (s.run op).2) st

/-- The core mutual-exclusion invariant: at most one of
`currentNavigation`, `currentTimespan` is non-null. -/
def UserFlow.exclusiveSlots (st : UserFlow) : Prop :=
  st.currentNavigation = none ∨ st.currentTimespan = none

/-- The parts of a parsed URL the user-flow module reads: `url.hostname`
and `url.pathname`. -/
structure ParsedURL where
  hostname : String
  pathname : String
deriving DecidableEq, Repr

/-- Split a character list at the first occurrence of `sep`, returning the
parts before and after it, or `none` when `sep` does not occur. -/
def findSplit (sep : List Char) : List Char → Option (List Char × List Char)
  | [] => if sep.isEmpty then some ([], []) else none
  | c :: rest =>
    if sep.isPrefixOf (c :: rest) then some ([], (c :: rest).drop sep.length)
    else match findSplit sep rest with
      | some (pre, post) => some (c :: pre, post)
      | none => none

/-- Model of the platform `new URL(longUrl)` constructor, restricted to the
absolute `scheme://host[:port]/path[?query][#fragment]` URLs that occur as
`finalDisplayedUrl` values: the authority runs up to the first `/`, `?` or
`#`; `hostname` is the authority with any `:port` suffix dropped;
`pathname` runs from the end of the authority up to the first `?` or `#`
and is `/` when that segment is empty (as for `https://example.com`). -/
def parseURL (longUrl : String) : ParsedURL :=
  let cs := longUrl.data
  let rest := match findSplit [':', '/', '/'] cs with
    | some (_scheme, tail) => tail
    | none => cs
  let authority := rest.takeWhile (fun c => c ≠ '/' && c ≠ '?' && c ≠ '#')
  let hostname := authority.takeWhile (fun c => c ≠ ':')
  let afterAuthority := rest.drop authority.length
  let path := afterAuthority.takeWhile (fun c => c ≠ '?' && c ≠ '#')
  { hostname := ⟨hostname⟩, pathname := if path.isEmpty then "/" else ⟨path⟩ }

/-- `shortenUrl(longUrl)`: hostname followed by pathname (query and
fragment stripped by the parse). -/
def shortenUrl (longUrl : String) : String :=
  let url := parseURL longUrl
  url.hostname ++ url.pathname

/-- `getDefaultStepName(artifacts)`: gather-mode label plus the shortened
final displayed URL. -/
def getDefaultStepName (artifacts : Artifacts) : String :=
  let shortUrl := shortenUrl artifacts.URL.finalDisplayedUrl
  match artifacts.GatherContext.gatherMode with
  | .navigation => "Navigation report (" ++ shortUrl ++ ")"
  | .timespan => "Timespan report (" ++ shortUrl ++ ")"
  | .snapshot => "Snapshot report (" ++ shortUrl ++ ")"

/-- JavaScript `value || fallback` on an optional string: the fallback is
used when the value is `undefined` (`none`) or falsy (the empty string). -/
def orTruthy (value : Option String) (fallback : String) : String :=
  match value with
  | some s => if s = "" then fallback else s
  | none => fallback

/-- One entry of `FlowResult.steps`: `{lhr, name}`. -/
structure FlowResultStep where
  lhr : LHR
  name : String
deriving DecidableEq, Repr

/-- `LH.FlowResult`: `{steps, name}`. -/
structure FlowResult where
  steps : List FlowResultStep
  name : String
deriving DecidableEq, Repr

/-- The result object returned by `Runner.audit`, restricted to the `lhr`
field the user-flow module reads. -/
structure AuditResult where
  lhr : LHR
deriving DecidableEq, Repr

/-- The `options` argument of `auditGatherSteps`:
`{name?, config?, gatherStepRunnerOptions?}`.  The WeakMap is modelled as
an optional lookup function returning the recorded runner options or
`none` for a step whose entry is absent (e.g. a deserialized step). -/
structure AuditOptions where
  name : Option String := none
  config : Option ConfigJson := none
  gatherStepRunnerOptions : Option (GatherStep → Option RunnerOptions) := none

/-- The display name `auditGatherSteps` resolves for a step
(`stepFlags?.name || getDefaultStepName(artifacts)`). -/
def stepDisplayName (gatherStep : GatherStep) : String :=
  orTruthy (gatherStep.stepFlags.bind StepFlags.name)
    (getDefaultStepName gatherStep.artifacts)

/-- The body of the `for (const gatherStep of gatherSteps)` loop of
`auditGatherSteps`: resolve the display name, look up the recorded runner
options and reconstruct them via `initializeConfig` (with the flow-level
config and the step's stored flags) plus a fresh empty computed cache when
absent, then invoke `Runner.audit`; a missing result fails with the
step-name-carrying error.  `initializeConfig` and `audit` are the external
collaborators, supplied as oracles. -/
def auditStep
    (initializeConfig : GatherMode → Option ConfigJson → Option StepFlags → Config)
    (audit : Artifacts → RunnerOptions → Option AuditResult)
    (options : AuditOptions) (gatherStep : GatherStep) :
    Except FlowError FlowResultStep :=
  let artifacts := gatherStep.artifacts
  let stepFlags := gatherStep.stepFlags
  let name := orTruthy (stepFlags.bind StepFlags.name) (getDefaultStepName artifacts)
  let recorded := options.gatherStepRunnerOptions.bind (fun lookup => lookup gatherStep)
  let runnerOptions : RunnerOptions := match recorded with
    | some ro => ro
    | none =>
      -- Step specific configs take precedence over a config for the entire flow.
      let configJson := options.config
      let gatherMode := artifacts.GatherContext.gatherMode
      let config := initializeConfig gatherMode configJson stepFlags
      { config := config, computedCache := ComputedCache.empty }
  match audit artifacts runnerOptions with
  | none => .error (.stepAuditFailed name)
  | some result => .ok { lhr := result.lhr, name := name }

/-- `auditGatherSteps(gatherSteps, options)`: fails on an empty step list,
otherwise audits each step in order (stopping at the first failure) and
assembles `{steps, name}` with the flow name defaulting to
`User flow (<hostname of the first step's final displayed URL>)`. -/
def auditGatherSteps
    (initializeConfig : GatherMode → Option ConfigJson → Option StepFlags → Config)
    (audit : Artifacts → RunnerOptions → Option AuditResult)
    (gatherSteps : List GatherStep) (options : AuditOptions) :
    Except FlowError FlowResult :=
  match gatherSteps with
  | [] => .error .emptyFlow
  | first :: _ => do
    let steps ← gatherSteps.mapM (auditStep initializeConfig audit options)
    let url := parseURL first.artifacts.URL.finalDisplayedUrl
    let flowName := orTruthy options.name ("User flow (" ++ url.hostname ++ ")")
    return { steps := steps, name := flowName }

/-- The step name carried by the outcome of `auditStep`: the name recorded
in a successful step entry, or the name carried by a `stepAuditFailed`
error. -/
def resultStepName : Except FlowError FlowResultStep → Option String
  | .ok s => some s.name
  | .error (.stepAuditFailed n) => some n
  | .error _ => none

/-- Concrete artifacts on `https://example.com/` used by the closed
evaluation theorems. -/
def exampleArtifacts (m : GatherMode) : Artifacts :=
  { GatherContext := { gatherMode := m }, URL := { finalDisplayedUrl := "https://example.com/" } }

/-- A concrete flagless gather step on `https://example.com/`. -/
def exampleStep (m : GatherMode) : GatherStep :=
  { artifacts := exampleArtifacts m, stepFlags := none }

/-- A concrete `initializeConfig` oracle. -/
def exampleInitializeConfig : GatherMode → Option ConfigJson → Option StepFlags → Config :=
  fun _ _ _ => "cfg"

/-- A concrete `Runner.audit` oracle that always produces a result. -/
def exampleAudit : Artifacts → RunnerOptions → Option AuditResult :=
  fun _ _ => some { lhr := "lhr" }

/-- A concrete successful navigation gather result. -/
def exampleGatherResult : GatherResult :=
  { artifacts := exampleArtifacts .navigation
    runnerOptions := { config := "cfg", computedCache := ComputedCache.empty } }

/-- The session state after a successful `startNavigation` from a fresh
session: the navigation handle is installed and will succeed. -/
def exampleActiveNavigation : UserFlow :=
  (UserFlow.startNavigation {} none (fun _ => .ready (.ok exampleGatherResult))).2

/-- The session state after a successful `startNavigation` from a fresh
session whose deferred `navigate()` call will fail. -/
def exampleStuckNavigation : UserFlow :=
  (UserFlow.startNavigation {} none (fun _ => .ready (.error "boom"))).2

/-- The session state after a successful `startTimespan` from a fresh
session. -/
def exampleActiveTimespan : UserFlow :=
  (UserFlow.startTimespan {} none (fun _ => .ok ())).2

theorem UserFlow.navigate_exclusiveSlots (st : UserFlow) (stepFlags : Option StepFlags)
    (g : StepFlags → Except GatherError GatherResult) (h : st.exclusiveSlots) :
    ((st.navigate stepFlags g).2).exclusiveSlots := by
  unfold navigate
  try dsimp only
  split
  · exact h
  split
  · exact h
  split
  · exact h
  · simpa [exclusiveSlots, _addGatherStep] using h

theorem UserFlow.startNavigation_exclusiveSlots (st : UserFlow)
    (stepOptions : Option StepFlags) (gb : StepFlags → NavigationGatherBehavior)
    (h : st.exclusiveSlots) : ((st.startNavigation stepOptions gb).2).exclusiveSlots := by
  unfold startNavigation
  try dsimp only
  split
  · split <;> exact h
  · rename_i hcond
    rw [not_or] at hcond
    split
    · split <;> exact h
    · simp only [exclusiveSlots]
      right
      exact Option.not_isSome_iff_eq_none.mp hcond.1

theorem UserFlow.endNavigation_exclusiveSlots (st : UserFlow) (h : st.exclusiveSlots) :
    (st.endNavigation).2.exclusiveSlots := by
  unfold endNavigation
  try dsimp only
  split
  · exact h
  split
  · exact h
  split
  · exact h
  · simp [exclusiveSlots, _addGatherStep]

theorem UserFlow.startTimespan_exclusiveSlots (st : UserFlow) (stepFlags : Option StepFlags)
    (g : Option StepFlags → Except GatherError Unit) (h : st.exclusiveSlots) :
    ((st.startTimespan stepFlags g).2).exclusiveSlots := by
  unfold startTimespan
  try dsimp only
  split
  · exact h
  split
  · exact h
  rename_i hnav
  split
  · exact h
  · simp only [exclusiveSlots]
    left
    exact Option.not_isSome_iff_eq_none.mp hnav

theorem UserFlow.endTimespan_exclusiveSlots (st : UserFlow)
    (g : Except GatherError GatherResult) (h : st.exclusiveSlots) :
    ((st.endTimespan g).2).exclusiveSlots := by
  unfold endTimespan
  try dsimp only
  split
  · exact h
  split
  · exact h
  split
  · exact h
  · simp [exclusiveSlots, _addGatherStep]

theorem UserFlow.snapshot_exclusiveSlots (st : UserFlow) (stepFlags : Option StepFlags)
    (g : Option StepFlags → Except GatherError GatherResult) (h : st.exclusiveSlots) :
    ((st.snapshot stepFlags g).2).exclusiveSlots := by
  unfold snapshot
  try dsimp only
  split
  · exact h
  split
  · exact h
  split
  · exact h
  · simpa [exclusiveSlots, _addGatherStep] using h

/-- Every single operation preserves the mutual-exclusion invariant. -/
theorem UserFlow.run_exclusiveSlots (st : UserFlow) (op : FlowOp) (h : st.exclusiveSlots) :
    ((st.run op).2).exclusiveSlots := by
  cases op with
  | navigate stepFlags g => exact st.navigate_exclusiveSlots stepFlags g h
  | startNavigation stepOptions gb => exact st.startNavigation_exclusiveSlots stepOptions gb h
  | endNavigation => exact st.endNavigation_exclusiveSlots h
  | startTimespan stepFlags g => exact st.startTimespan_exclusiveSlots stepFlags g h
  | endTimespan g => exact st.endTimespan_exclusiveSlots g h
  | snapshot stepFlags g => exact st.snapshot_exclusiveSlots stepFlags g h

/-- Every sequence of operations from a fresh session keeps the
mutual-exclusion invariant: at most one of `currentNavigation`,
`currentTimespan` is ever non-null. -/
theorem UserFlow.runAll_exclusiveSlots (ops : List FlowOp) :
    (({} : UserFlow).runAll ops).exclusiveSlots := by
  have h : ∀ st : UserFlow, st.exclusiveSlots → (st.runAll ops).exclusiveSlots := by
    induction ops with
    | nil => intro st h; exact h
    | cons op rest ih =>
      intro st h
      exact ih _ (st.run_exclusiveSlots op h)
  exact h {} (Or.inl rfl)

/-- C1: the claim states that every operation invoked while the
conflicting slot is active fails with an `InvalidFlowState` error and
appends no step.  This evaluation at the failing input shows the
deviation: from a fresh session, a first `startNavigation` succeeds and
installs the navigation handle, but a second `startNavigation` invoked
while `currentNavigation` is set neither fulfills nor rejects — the inner
`navigate()` precondition rejection is re-thrown into the never-awaited
`navigationResultPromise` (because the catch handler sees the installed
handle), `navigationSetupPromise` never settles, and the operation hangs
with the state unchanged (no step appended, no error surfaced). -/
theorem C1_startNavigation_while_navigation_active_hangs :
    (UserFlow.startNavigation {} none (fun _ => .ready (.ok exampleGatherResult))).1 =
      .ok ∧
    exampleActiveNavigation.currentNavigation.isSome = true ∧
    UserFlow.startNavigation exampleActiveNavigation none
      (fun _ => .ready (.ok exampleGatherResult)) = (.hangs, exampleActiveNavigation) ∧
    exampleActiveNavigation.gatherSteps = [] := by
  decide

/-- C3 counterexample: the claim states that whenever a run of the
handshake ends in failure, `currentNavigation` ends up cleared or never
set once the failing operation has rejected.  Concretely: `startNavigation`
succeeds with a deferred failure, `endNavigation` rejects with that
failure, yet `currentNavigation` is still set afterwards — the clearing
line runs only after a successful `await`. -/
theorem C3_counterexample :
    (UserFlow.startNavigation {} none (fun _ => .ready (.error "boom"))).1 = .ok ∧
    UserFlow.endNavigation exampleStuckNavigation =
      (.error (.gatherError "boom"), exampleStuckNavigation) ∧
    exampleStuckNavigation.currentNavigation ≠ none := by
  decide

/-- C6: `auditGatherSteps` applied to an empty step list fails with the
`EmptyFlow` error for every choice of the external collaborators — the
early return precedes any `initializeConfig` or `Runner.audit` call, so no
collaborator is invoked and no output is produced. -/
theorem C6_auditGatherSteps_empty_fails
    (initializeConfig : GatherMode → Option ConfigJson → Option StepFlags → Config)
    (audit : Artifacts → RunnerOptions → Option AuditResult)
    (options : AuditOptions) :
    auditGatherSteps initializeConfig audit [] options = .error .emptyFlow := rfl

/-- C10: a step whose per-step `name` flag is present but equal to the
empty string resolves to the generated default name, exactly as a step
with no `name` flag — the fallback `stepFlags?.name || getDefaultStepName`
tests truthiness, and the empty string is falsy. -/
theorem C10_empty_string_name_uses_default (artifacts : Artifacts) (f : StepFlags)
    (h : f.name = some "") :
    stepDisplayName { artifacts := artifacts, stepFlags := some f } =
      getDefaultStepName artifacts ∧
    stepDisplayName { artifacts := artifacts, stepFlags := some f } =
      stepDisplayName { artifacts := artifacts, stepFlags := none } := by
  simp [stepDisplayName, orTruthy, h, Option.bind]

/-- C10 witness: the theorem applied at a concrete snapshot step whose
name flag is the empty string. -/
theorem C10_empty_string_name_uses_default_witness :
    stepDisplayName { artifacts := exampleArtifacts .snapshot,
                      stepFlags := some { name := some "" } } =
      getDefaultStepName (exampleArtifacts .snapshot) ∧
    stepDisplayName { artifacts := exampleArtifacts .snapshot,
                      stepFlags := some { name := some "" } } =
      stepDisplayName { artifacts := exampleArtifacts .snapshot, stepFlags := none } :=
  C10_empty_string_name_uses_default (exampleArtifacts .snapshot) { name := some "" } rfl

/-- C2: every failure of the underlying `navigate()` call made by
`startNavigation` is routed by `navigationCatchHandler`, which checks
whether the navigation handle (`currentNavigation`) has already been
installed at the time of failure.  Before the handle is installed the
route is `rejectSetup`: the setup promise is rejected, `startNavigation`
itself rejects with that failure, and no handle is ever installed.  Once
the handle is installed the route is `deferToResult`: the failure is
deferred and re-raised when `continueAndAwaitResult()` is awaited via
`endNavigation`. -/
theorem C2_navigation_failure_routing (st : UserFlow) (stepOptions : Option StepFlags)
    (gb : StepFlags → UserFlow.NavigationGatherBehavior)
    (hts : st.currentTimespan = none) (hnav : st.currentNavigation = none) :
    let nf := UserFlow._getNextNavigationFlags st.gatherSteps stepOptions
    UserFlow.navigationCatchHandler st.currentNavigation = .rejectSetup ∧
    (∀ e, gb nf = .failsBeforeReady e →
      st.startNavigation stepOptions gb = (.error (.gatherError e), st) ∧
      st.currentNavigation = none) ∧
    (∀ res, gb nf = .ready res →
      st.startNavigation stepOptions gb =
        (.ok, { st with currentNavigation := some ⟨nf, res⟩ }) ∧
      UserFlow.navigationCatchHandler (some ⟨nf, res⟩) = .deferToResult ∧
      (∀ e, res = .error e →
        UserFlow.endNavigation { st with currentNavigation := some ⟨nf, res⟩ } =
          (.error (.gatherError e), { st with currentNavigation := some ⟨nf, res⟩ }))) := by
  intro nf
  refine ⟨by simp [UserFlow.navigationCatchHandler, hnav], ?_, ?_⟩
  · intro e heq
    refine ⟨?_, hnav⟩
    simp [UserFlow.startNavigation, hts, hnav, UserFlow.navigationCatchHandler, nf, heq]
  · intro res heq
    refine ⟨?_, by simp [UserFlow.navigationCatchHandler], ?_⟩
    · simp [UserFlow.startNavigation, hts, hnav, nf, heq]
    · intro e hres
      subst hres
      simp [UserFlow.endNavigation, hts]

/-- C2 witness: the routing theorem applied to a fresh session whose
gatherer fails during setup. -/
theorem C2_navigation_failure_routing_witness :
    (({} : UserFlow).currentTimespan = none ∧ ({} : UserFlow).currentNavigation = none) ∧
    UserFlow.startNavigation {} none (fun _ => .failsBeforeReady "boom") =
      (.error (.gatherError "boom"), {}) :=
  ⟨⟨rfl, rfl⟩,
    (((C2_navigation_failure_routing {} none (fun _ => .failsBeforeReady "boom")
      rfl rfl).2.1) "boom" rfl).1⟩

/-- C3 (amended): in the pre-setup failure case `startNavigation` rejects
with the failure and `currentNavigation` is never set; in the post-setup
case the failure surfaces from `endNavigation` and `currentNavigation`
remains set — the slot is cleared only when `endNavigation` succeeds. -/
theorem C3_handshake_failure_slot (st : UserFlow) (stepOptions : Option StepFlags)
    (gb : StepFlags → UserFlow.NavigationGatherBehavior)
    (hts : st.currentTimespan = none) (hnav : st.currentNavigation = none) :
    let nf := UserFlow._getNextNavigationFlags st.gatherSteps stepOptions
    (∀ e, gb nf = .failsBeforeReady e →
      st.startNavigation stepOptions gb = (.error (.gatherError e), st) ∧
      (st.startNavigation stepOptions gb).2.currentNavigation = none) ∧
    (∀ e, gb nf = .ready (.error e) →
      st.startNavigation stepOptions gb =
        (.ok, { st with currentNavigation := some ⟨nf, .error e⟩ }) ∧
      UserFlow.endNavigation { st with currentNavigation := some ⟨nf, .error e⟩ } =
        (.error (.gatherError e), { st with currentNavigation := some ⟨nf, .error e⟩ }) ∧
      ({ st with currentNavigation := some ⟨nf, .error e⟩ } : UserFlow).currentNavigation ≠
        none) ∧
    (∀ r, gb nf = .ready (.ok r) →
      (UserFlow.endNavigation
        { st with currentNavigation := some ⟨nf, .ok r⟩ }).2.currentNavigation = none) := by
  intro nf
  refine ⟨?_, ?_, ?_⟩
  · intro e heq
    have h1 : st.startNavigation stepOptions gb = (.error (.gatherError e), st) := by
      simp [UserFlow.startNavigation, hts, hnav, UserFlow.navigationCatchHandler, nf, heq]
    exact ⟨h1, by rw [h1]; exact hnav⟩
  · intro e heq
    refine ⟨?_, ?_, by simp⟩
    · simp [UserFlow.startNavigation, hts, hnav, nf, heq]
    · simp [UserFlow.endNavigation, hts]
  · intro r heq
    simp [UserFlow.endNavigation, hts, UserFlow._addGatherStep]

/-- C3 witness: the amended theorem applied to a fresh session with a
deferred failure, showing the slot still set after `endNavigation`
rejects. -/
theorem C3_handshake_failure_slot_witness :
    (({} : UserFlow).currentTimespan = none ∧ ({} : UserFlow).currentNavigation = none) ∧
    UserFlow.endNavigation exampleStuckNavigation =
      (.error (.gatherError "boom"), exampleStuckNavigation) :=
  ⟨⟨rfl, rfl⟩,
    (((C3_handshake_failure_slot {} none (fun _ => .ready (.error "boom"))
      rfl rfl).2.1) "boom" rfl).2.1⟩

/-- C9: when the external end-capture operation fails, `endTimespan`
rejects with that failure, the state is unchanged (no step appended, the
`currentTimespan` slot remains set), and every subsequent operation other
than `endTimespan` fails with the timespan-active precondition error,
which is an `InvalidFlowState` error. -/
theorem C9_endTimespan_failure_keeps_slot (st : UserFlow) (ts : CurrentTimespan)
    (e : GatherError)
    (hts : st.currentTimespan = some ts) (hnav : st.currentNavigation = none) :
    st.endTimespan (.error e) = (.error (.gatherError e), st) ∧
    (∀ stepFlags g, st.navigate stepFlags g = (.error .timespanAlreadyInProgress, st)) ∧
    (∀ stepOptions gb,
      st.startNavigation stepOptions gb = (.error .timespanAlreadyInProgress, st)) ∧
    st.endNavigation = (.error .timespanAlreadyInProgress, st) ∧
    (∀ stepFlags g, st.startTimespan stepFlags g = (.error .timespanAlreadyInProgress, st)) ∧
    (∀ stepFlags g, st.snapshot stepFlags g = (.error .timespanAlreadyInProgress, st)) ∧
    FlowError.timespanAlreadyInProgress.isInvalidFlowState = true := by
  refine ⟨?_, ?_, ?_, ?_, ?_, ?_, rfl⟩
  · simp [UserFlow.endTimespan, hts, hnav]
  · intro stepFlags g
    simp [UserFlow.navigate, hts]
  · intro stepOptions gb
    simp [UserFlow.startNavigation, hts, hnav, UserFlow.navigationCatchHandler]
  · simp [UserFlow.endNavigation, hts]
  · intro stepFlags g
    simp [UserFlow.startTimespan, hts]
  · intro stepFlags g
    simp [UserFlow.snapshot, hts]

/-- C9 witness: the theorem applied to a session with an active timespan
whose end-capture fails. -/
theorem C9_endTimespan_failure_keeps_slot_witness :
    (exampleActiveTimespan.currentTimespan = some { stepFlags := none } ∧
      exampleActiveTimespan.currentNavigation = none) ∧
    exampleActiveTimespan.endTimespan (.error "boom") =
      (.error (.gatherError "boom"), exampleActiveTimespan) ∧
    exampleActiveTimespan.endNavigation =
      (.error .timespanAlreadyInProgress, exampleActiveTimespan) :=
  ⟨⟨rfl, rfl⟩,
    (C9_endTimespan_failure_keeps_slot exampleActiveTimespan { stepFlags := none } "boom"
      rfl rfl).1,
    (C9_endTimespan_failure_keeps_slot exampleActiveTimespan { stepFlags := none } "boom"
      rfl rfl).2.2.2.1⟩

/-- Closed form of `_getNextNavigationFlags`: `name` is passed through,
`skipAboutBlank` defaults to `true`, and `disableStorageReset` defaults to
`true` exactly when some already-recorded step is a navigation. -/
theorem UserFlow._getNextNavigationFlags_spec (gatherSteps : List GatherStep)
    (stepFlags : Option StepFlags) :
    UserFlow._getNextNavigationFlags gatherSteps stepFlags =
      { name := (stepFlags.getD {}).name
        skipAboutBlank := some (((stepFlags.getD {}).skipAboutBlank).getD true)
        disableStorageReset :=
          match (stepFlags.getD {}).disableStorageReset with
          | some b => some b
          | none =>
            if gatherSteps.any
                (fun step => step.artifacts.GatherContext.gatherMode == GatherMode.navigation)
            then some true else none } := by
  by_cases h : gatherSteps.any
      (fun step => step.artifacts.GatherContext.gatherMode == GatherMode.navigation)
  all_goals cases stepFlags with
  | none => simp [UserFlow._getNextNavigationFlags, h]
  | some f =>
    obtain ⟨n, sab, dsr⟩ := f
    cases sab <;> cases dsr <;> simp [UserFlow._getNextNavigationFlags, h]

/-- C4: for every call to `navigate` (including the deferred one made by
`startNavigation`) the effective step flags are computed once, at the
moment the navigation step begins, from the step list as it is then:
`skipAboutBlank` defaults to `true` whenever not explicitly set,
`disableStorageReset` defaults to `true` only when some prior recorded
step has gather mode `navigation`, explicit caller-supplied values of
either flag are never overridden, and exactly those flags are passed to
the navigation gatherer and recorded on the appended step (or stored in
the installed navigation handle). -/
theorem C4_navigation_default_flags (st : UserFlow) (stepFlags : Option StepFlags)
    (hts : st.currentTimespan = none) (hnav : st.currentNavigation = none) :
    let nf := UserFlow._getNextNavigationFlags st.gatherSteps stepFlags
    let orig := stepFlags.getD {}
    (∀ b, orig.skipAboutBlank = some b → nf.skipAboutBlank = some b) ∧
    (orig.skipAboutBlank = none → nf.skipAboutBlank = some true) ∧
    (∀ b, orig.disableStorageReset = some b → nf.disableStorageReset = some b) ∧
    (orig.disableStorageReset = none →
      nf.disableStorageReset =
        (if st.gatherSteps.any
            (fun step => step.artifacts.GatherContext.gatherMode == GatherMode.navigation)
          then some true else none)) ∧
    nf.name = orig.name ∧
    (∀ g r, g nf = Except.ok r →
      st.navigate stepFlags g = (.ok, st._addGatherStep r (some nf))) ∧
    (∀ gb res, gb nf = UserFlow.NavigationGatherBehavior.ready res →
      (st.startNavigation stepFlags gb).2.currentNavigation = some ⟨nf, res⟩) := by
  intro nf orig
  have hspec := UserFlow._getNextNavigationFlags_spec st.gatherSteps stepFlags
  refine ⟨?_, ?_, ?_, ?_, ?_, ?_, ?_⟩
  · intro b hb
    simp [nf, hspec, orig] at hb ⊢
    simp [hb]
  · intro hb
    simp [nf, hspec, orig] at hb ⊢
    simp [hb]
  · intro b hb
    simp [nf, hspec, orig] at hb ⊢
    simp [hb]
  · intro hb
    simp [nf, hspec, orig] at hb ⊢
    simp [hb]
  · simp [nf, hspec, orig]
  · intro g r hg
    simp [UserFlow.navigate, hts, hnav, nf] at hg ⊢
    simp [hg]
  · intro gb res hgb
    simp [UserFlow.startNavigation, hts, hnav, nf] at hgb ⊢
    simp [hgb]

/-- C4 witness: the theorem applied to a fresh session with no explicit
flags — `skipAboutBlank` is defaulted to `true`, `disableStorageReset` is
left unset (no prior navigation), and `navigate` appends the step carrying
exactly the computed flags. -/
theorem C4_navigation_default_flags_witness :
    (({} : UserFlow).currentTimespan = none ∧ ({} : UserFlow).currentNavigation = none) ∧
    (UserFlow._getNextNavigationFlags ([] : List GatherStep) none).skipAboutBlank =
      some true ∧
    UserFlow.navigate {} none (fun _ => Except.ok exampleGatherResult) =
      (.ok, UserFlow._addGatherStep {} exampleGatherResult
        (some (UserFlow._getNextNavigationFlags ([] : List GatherStep) none))) :=
  ⟨⟨rfl, rfl⟩,
    (C4_navigation_default_flags {} none rfl rfl).2.1 rfl,
    (C4_navigation_default_flags {} none rfl rfl).2.2.2.2.2.1
      (fun _ => Except.ok exampleGatherResult) exampleGatherResult rfl⟩

/-- C5: when a step's recorded runner options are absent from the registry
lookup, `auditStep` (the loop body of `auditGatherSteps`) invokes the
audit service with runner options reconstructed by calling
`initializeConfig` with that step's gather mode, the flow-level config and
that step's stored flags, paired with a fresh empty computed cache; and
the step's resolved display name is the same whether or not recorded
options are present — the outcome always carries
`stepDisplayName gatherStep`, independent of the options lookup. -/
theorem C5_reconstructed_runner_options
    (initializeConfig : GatherMode → Option ConfigJson → Option StepFlags → Config)
    (audit : Artifacts → RunnerOptions → Option AuditResult)
    (options : AuditOptions) (gatherStep : GatherStep)
    (habsent : options.gatherStepRunnerOptions.bind (fun lookup => lookup gatherStep) = none) :
    auditStep initializeConfig audit options gatherStep =
      (match audit gatherStep.artifacts
          { config := initializeConfig gatherStep.artifacts.GatherContext.gatherMode
              options.config gatherStep.stepFlags
            computedCache := ComputedCache.empty } with
        | none => .error (.stepAuditFailed (stepDisplayName gatherStep))
        | some result => .ok { lhr := result.lhr, name := stepDisplayName gatherStep }) ∧
    (∀ options' : AuditOptions,
      resultStepName (auditStep initializeConfig audit options' gatherStep) =
        some (stepDisplayName gatherStep)) := by
  constructor
  · simp only [auditStep, habsent, stepDisplayName]
  · intro options'
    simp only [auditStep, stepDisplayName]
    cases options'.gatherStepRunnerOptions.bind (fun lookup => lookup gatherStep) with
    | none =>
      cases audit gatherStep.artifacts _ with
      | none => rfl
      | some result => rfl
    | some ro =>
      cases audit gatherStep.artifacts ro with
      | none => rfl
      | some result => rfl

/-- C5 witness: the theorem applied to a flagless navigation step with no
recorded options. -/
theorem C5_reconstructed_runner_options_witness :
    (({} : AuditOptions).gatherStepRunnerOptions.bind
        (fun lookup => lookup (exampleStep .navigation)) = none) ∧
    resultStepName
        (auditStep exampleInitializeConfig exampleAudit {} (exampleStep .navigation)) =
      some (stepDisplayName (exampleStep .navigation)) :=
  ⟨rfl,
    (C5_reconstructed_runner_options exampleInitializeConfig exampleAudit {}
      (exampleStep .navigation) rfl).2 {}⟩

/-- C7: a gather step without an explicit per-step name flag gets the
default display name: the gather-mode label (`Navigation` / `Timespan` /
`Snapshot`) followed by ` report (` and the final displayed URL shortened
to hostname plus pathname with query and fragment stripped; in particular
three flagless steps with the three modes on `https://example.com/` are
named exactly `Navigation report (example.com/)`,
`Timespan report (example.com/)` and `Snapshot report (example.com/)`. -/
theorem C7_default_step_names :
    (∀ gatherStep : GatherStep, gatherStep.stepFlags.bind StepFlags.name = none →
      stepDisplayName gatherStep = getDefaultStepName gatherStep.artifacts) ∧
    (∀ a : Artifacts,
      getDefaultStepName a =
        (match a.GatherContext.gatherMode with
          | .navigation => "Navigation report ("
          | .timespan => "Timespan report ("
          | .snapshot => "Snapshot report (") ++
          shortenUrl a.URL.finalDisplayedUrl ++ ")") ∧
    shortenUrl "https://example.com/a/b?x=1#y" = "example.com/a/b" ∧
    auditGatherSteps exampleInitializeConfig exampleAudit
        [exampleStep .navigation, exampleStep .timespan, exampleStep .snapshot] {} =
      .ok { steps := [{ lhr := "lhr", name := "Navigation report (example.com/)" },
                      { lhr := "lhr", name := "Timespan report (example.com/)" },
                      { lhr := "lhr", name := "Snapshot report (example.com/)" }],
            name := "User flow (example.com)" } := by
  refine ⟨?_, ?_, by decide, by decide⟩
  · intro gatherStep h
    simp [stepDisplayName, orTruthy, h]
  · intro a
    cases hm : a.GatherContext.gatherMode <;> simp [getDefaultStepName, hm]

/-- C7 witness: the default-name rule applied to a concrete flagless
timespan step. -/
theorem C7_default_step_names_witness :
    ((exampleStep .timespan).stepFlags.bind StepFlags.name = none) ∧
    stepDisplayName (exampleStep .timespan) =
      getDefaultStepName (exampleStep .timespan).artifacts :=
  ⟨rfl, C7_default_step_names.1 (exampleStep .timespan) rfl⟩

/-- C8 counterexample: the claim states that the flow result's name equals
the explicitly supplied session-level name whenever one is given.  With
the supplied name set to the empty string the code falls back to the
generated default (`options.name || ...` tests truthiness), so the result
name is `User flow (example.com)`, not the supplied `""`. -/
theorem C8_counterexample :
    auditGatherSteps exampleInitializeConfig exampleAudit [exampleStep .navigation]
        { name := some "" } =
      .ok { steps := [{ lhr := "lhr", name := "Navigation report (example.com/)" }],
            name := "User flow (example.com)" } ∧
    "User flow (example.com)" ≠ "" := by
  decide

/-- C8 (amended): for every non-empty step list whose audit succeeds, the
flow result's name equals the supplied session-level name when that name
is non-empty; a missing or empty-string (falsy) name falls back to
`User flow (` + the hostname of the first step's final displayed URL +
`)`. -/
theorem C8_flow_name
    (initializeConfig : GatherMode → Option ConfigJson → Option StepFlags → Config)
    (audit : Artifacts → RunnerOptions → Option AuditResult)
    (first : GatherStep) (rest : List GatherStep)
    (options : AuditOptions) (r : FlowResult)
    (h : auditGatherSteps initializeConfig audit (first :: rest) options = .ok r) :
    (∀ n, options.name = some n → n ≠ "" → r.name = n) ∧
    ((options.name = none ∨ options.name = some "") →
      r.name =
        "User flow (" ++ (parseURL first.artifacts.URL.finalDisplayedUrl).hostname ++ ")") := by
  have hname : r.name =
      orTruthy options.name
        ("User flow (" ++ (parseURL first.artifacts.URL.finalDisplayedUrl).hostname ++ ")") := by
    simp only [auditGatherSteps] at h
    cases hm : (first :: rest).mapM (auditStep initializeConfig audit options) with
    | error e => rw [hm] at h; simp [Bind.bind, Except.bind] at h
    | ok steps =>
      rw [hm] at h
      simp only [Bind.bind, Except.bind, pure, Except.pure] at h
      cases h
      rfl
  constructor
  · intro n hn hne
    rw [hname, hn]
    simp [orTruthy, hne]
  · intro hn
    cases hn with
    | inl hn => rw [hname, hn]; simp [orTruthy]
    | inr hn => rw [hname, hn]; simp [orTruthy]

/-- C8 witness: the amended theorem applied to a one-step flow with the
non-empty supplied name `My flow`. -/
theorem C8_flow_name_witness :
    auditGatherSteps exampleInitializeConfig exampleAudit [exampleStep .navigation]
        { name := some "My flow" } =
      .ok { steps := [{ lhr := "lhr", name := "Navigation report (example.com/)" }],
            name := "My flow" } ∧
    ("My flow" : String) ≠ "" ∧
    ({ steps := [{ lhr := "lhr", name := "Navigation report (example.com/)" }],
       name := "My flow" } : FlowResult).name = "My flow" :=
  ⟨by decide, by decide,
    (C8_flow_name exampleInitializeConfig exampleAudit (exampleStep .navigation) []
      { name := some "My flow" }
      { steps := [{ lhr := "lhr", name := "Navigation report (example.com/)" }],
        name := "My flow" } (by decide)).1 "My flow" rfl (by decide)⟩
